import Mathlib

/-!
Verification of the real-time session orchestration layer of a voice-assistant
server: a `SessionManager` (session/participant lifecycle, history, recording,
backed by a Redis-like cache with an in-memory map) and a `GeminiLiveService`
(per-session live-response state machine with a `responding` flag, barge-in
interrupt, and asynchronous AI-responder calls).

The JavaScript source is embedded shallowly: each method becomes a pure Lean
function on an explicit state; `Date.now()` and generated UUIDs are passed in
as explicit arguments; the asynchronous `sendAudioChunk` is split at its single
`await` point into a call-start event and a call-return event, with the set of
outstanding calls tracked explicitly.
-/

/-- Association list lookup, modelling `Map.get` / Redis key lookup
(keys are strings). -/
def alookup {α : Type} (m : List (String × α)) (k : String) : Option α :=
  match m with
  | [] => none
  | (k1, v) :: rest => if k1 = k then some v else alookup rest k

/-- Association list insert-or-replace, modelling `Map.set` / Redis `SET`. -/
def ainsert {α : Type} (m : List (String × α)) (k : String) (v : α) :
    List (String × α) :=
  match m with
  | [] => [(k, v)]
  | (k1, v1) :: rest => if k1 = k then (k, v) :: rest else (k1, v1) :: ainsert rest k v

/-- Association list removal, modelling `Map.delete` / Redis `DEL`. -/
def aerase {α : Type} (m : List (String × α)) (k : String) : List (String × α) :=
  m.filter (fun p => p.1 != k)

abbrev SessionId := String
abbrev ParticipantId := String

/-! ## Live response coordinator (`GeminiLiveService`, src: the live service file)

`sessions` is the service's `Map` of per-session volatile state.  An
`AIResponder` call (`this.geminiService.getResponse`) is long-latency; the
`await` in `sendAudioChunk` is the only suspension point, so the method is
modelled as two atomic events: `chunkArrive` (everything up to and including
starting the call) and `callReturn` (the continuation after the `await`,
including the `finally` block).  `pending` is the set of outstanding
AIResponder calls, and `emitted` logs every `this.emit('response', ...)`. -/

/-- The per-session volatile state stored in `GeminiLiveService.sessions`. -/
structure LiveSession where
  id : SessionId
  systemInstruction : String
  responding : Bool
deriving Repr, DecidableEq

/-- An outstanding (started, not yet returned) AIResponder call. -/
structure PendingCall where
  callId : Nat
  sessionId : SessionId
deriving Repr, DecidableEq

/-- A `response` event emitted to the session's participants, identified by the
session it belongs to and the call that produced it. -/
structure EmittedEvent where
  sessionId : SessionId
  callId : Nat
deriving Repr, DecidableEq

/-- The whole state of one `GeminiLiveService` instance, plus the bookkeeping
(outstanding calls, emission log) needed to observe its behaviour. -/
structure LiveSvc where
  sessions : List (SessionId × LiveSession)
  pending : List PendingCall
  nextCall : Nat
  emitted : List EmittedEvent
deriving Repr, DecidableEq

/-- Events a `GeminiLiveService` can process.  `chunkArrive sid` is
`sendAudioChunk(session, chunk)` up to its `await`; `callReturn cid` is the
resumption of call `cid` when the external AIResponder returns. -/
inductive LiveEvent where
  | openLive (sid : SessionId) (instr : String)
  | closeLive (sid : SessionId)
  | interrupt (sid : SessionId)
  | chunkArrive (sid : SessionId)
  | callReturn (cid : Nat)
deriving Repr, DecidableEq

/-- One step of the live service.  Mirrors, case by case:
`openSession`, `closeSession`, `interrupt`, the synchronous prefix of
`sendAudioChunk` (guard on `s.responding`, set it, start the call), and the
continuation of `sendAudioChunk` after the `await` (emit unless the session id
is gone from the map, then the `finally` clears `responding` if the session is
still there). -/
def stepLive (st : LiveSvc) (ev : LiveEvent) : LiveSvc :=
  match ev with
  | .openLive sid instr =>
      { st with sessions :=
          ainsert st.sessions sid ⟨sid, instr, false⟩ }
  | .closeLive sid =>
      { st with sessions := aerase st.sessions sid }
  | .interrupt sid =>
      match alookup st.sessions sid with
      | none => st
      | some s => { st with sessions := ainsert st.sessions sid { s with responding := false } }
  | .chunkArrive sid =>
      match alookup st.sessions sid with
      | none => st
      | some s =>
          if s.responding then st
          else
            { st with
              sessions := ainsert st.sessions sid { s with responding := true },
              pending := st.pending ++ [⟨st.nextCall, sid⟩],
              nextCall := st.nextCall + 1 }
  | .callReturn cid =>
      match st.pending.find? (fun p => p.callId == cid) with
      | none => st
      | some p =>
          let st1 := { st with pending := st.pending.filter (fun q => q.callId != cid) }
          let st2 :=
            if (alookup st1.sessions p.sessionId).isSome then
              { st1 with emitted := st1.emitted ++ [⟨p.sessionId, p.callId⟩] }
            else st1
          match alookup st2.sessions p.sessionId with
          | none => st2
          | some s =>
              { st2 with sessions :=
                  ainsert st2.sessions p.sessionId { s with responding := false } }

/-- Run the live service over a sequence of events. -/
def runLive (st : LiveSvc) (tr : List LiveEvent) : LiveSvc :=
  tr.foldl stepLive st

/-- The initial state of a freshly constructed `GeminiLiveService`. -/
def initLive : LiveSvc :=
  { sessions := [], pending := [], nextCall := 0, emitted := [] }

/-- Predicate restricting a trace to audio-chunk arrivals and call returns
(the interleavings of `sendAudioChunk` alone, with no interrupt and no
close/re-open). -/
def onlyChunkReturn : List LiveEvent → Bool
  | [] => true
  | .chunkArrive _ :: rest => onlyChunkReturn rest
  | .callReturn _ :: rest => onlyChunkReturn rest
  | _ :: _ => false

/-! ## JavaScript value coercions

The source leans on JS truthiness (`x || d`) for option defaults; these helpers
embed `||` for the three field shapes that occur, with `none` standing for
`undefined` (an absent field). -/

/-- JS `x || d` for an optional string (both `undefined` and the empty string
are falsy). -/
def jsOrStr (x : Option String) (d : String) : String :=
  match x with
  | some s => if s = "" then d else s
  | none => d

/-- JS `x || d` for an optional boolean (`undefined` and `false` are falsy). -/
def jsOrBool (x : Option Bool) (d : Bool) : Bool :=
  match x with
  | some true => true
  | some false => d
  | none => d

/-- JS `x || d` for an optional number (`undefined` and `0` are falsy). -/
def jsOrNat (x : Option Nat) (d : Nat) : Nat :=
  match x with
  | some n => if n = 0 then d else n
  | none => d

/-- JS `arr.slice(-k)` on a list: the last `k` elements, in order.  For `k = 0`
the source expression `slice(-0)` is `slice(0)`, the whole array. -/
def jsSliceNeg {α : Type} (l : List α) (k : Nat) : List α :=
  if k = 0 then l else l.drop (l.length - k)

/-! ## Data model (`SessionManager` + `CacheService`)

Sessions, history entries and recordings as built by the source.  Timestamps
are `Nat` milliseconds, passed in for each `Date.now()` call site (one value
per method call).  Fields the source leaves `undefined` until first assignment
(`recordingStartTime` and friends) are `Option`s.  `recordingDuration` (and a
Recording's `duration`) is an `Option Int`: `none` models the JS `NaN`
produced by `now - undefined`. -/

/-- The `settings` sub-object of a session. -/
structure Settings where
  autoTranslate : Bool
  voiceEnabled : Bool
  subtitleEnabled : Bool
deriving Repr, DecidableEq

/-- A stored history entry, as built by `SessionManager.addToHistory`. -/
structure HistoryEntry where
  id : String
  timestamp : Nat
  userInput : String
  aiResponse : String
  language : String
  voice : String
  audioUrl : Option String
  duration : Option Nat
deriving Repr, DecidableEq

/-- A timestamped raw-data point accumulated by `addRecordingData`. -/
structure RawPoint where
  timestamp : Nat
  data : String
deriving Repr, DecidableEq

/-- A session object, as built by `SessionManager.createSession` and mutated
by the other methods. -/
structure Session where
  id : SessionId
  createdAt : Nat
  lastActivity : Nat
  participants : List ParticipantId
  language : String
  voice : String
  history : List HistoryEntry
  isRecording : Bool
  recordingData : List RawPoint
  settings : Settings
  recordingStartTime : Option Nat
  recordingEndTime : Option Nat
  recordingDuration : Option Int
  recordings : List String
deriving Repr, DecidableEq

/-- The recording artifact built by `SessionManager.stopRecording`. -/
structure Recording where
  id : String
  sessionId : SessionId
  startTime : Nat
  endTime : Nat
  duration : Option Int
  data : List RawPoint
  history : List HistoryEntry
deriving Repr, DecidableEq

/-- A recording as stored in the cache, together with the TTL (seconds) passed
to `cacheService.set`. -/
structure StoredRecording where
  record : Recording
  ttl : Nat
deriving Repr, DecidableEq

/-- The value held in `SessionManager.recordingSessions` for an in-progress
recording. -/
structure RecEntry where
  startTime : Nat
  data : List RawPoint
deriving Repr, DecidableEq

/-! ## `CacheService` (Redis adapter, src/server/services/GeminiService.js)

Every method first checks `this.connected`; when disconnected, reads return
`null`/`[]` and writes are no-ops returning `false`.  The source stores JSON
under prefixed keys (`session:<id>`, `history:<id>`, `recording:<id>`); the
three disjoint prefixes are modelled as three typed maps keyed by the
unprefixed id.  Session TTLs are not observable by any claim and are not
tracked; recording TTLs are. -/

/-- The state of the `CacheService` (connection flag plus stored data). -/
structure CacheState where
  connected : Bool
  sessions : List (SessionId × Session)
  histories : List (SessionId × List HistoryEntry)
  recordings : List (String × StoredRecording)
deriving Repr, DecidableEq

namespace CacheService

/-- `getSession`: `get('session:' + id)`; `null` when disconnected or absent. -/
def getSession (c : CacheState) (sid : SessionId) : Option Session :=
  if c.connected then alookup c.sessions sid else none

/-- `setSession`: `set('session:' + id, data, ttl)`; no-op when disconnected. -/
def setSession (c : CacheState) (sid : SessionId) (s : Session) : CacheState :=
  if c.connected then { c with sessions := ainsert c.sessions sid s } else c

/-- `deleteSession`: `del('session:' + id)`; no-op when disconnected. -/
def deleteSession (c : CacheState) (sid : SessionId) : CacheState :=
  if c.connected then { c with sessions := aerase c.sessions sid } else c

/-- `lpush('history:' + id, entry)`: prepend; returns whether it succeeded
(`false` and no-op when disconnected). -/
def lpushHistory (c : CacheState) (sid : SessionId) (e : HistoryEntry) :
    Bool × CacheState :=
  if c.connected then
    let h1 := e :: (alookup c.histories sid).getD []
    (true, { c with histories := ainsert c.histories sid h1 })
  else (false, c)

/-- `ltrim('history:' + id, 0, n - 1)`: keep the first `n` elements; no-op when
disconnected. -/
def ltrimHistory (c : CacheState) (sid : SessionId) (n : Nat) : CacheState :=
  if c.connected then
    let h1 := ((alookup c.histories sid).getD []).take n
    { c with histories := ainsert c.histories sid h1 }
  else c

/-- `getSessionHistory`: `lrange('history:' + id, 0, -1)`, the whole stored
list (newest first); `[]` when disconnected or absent. -/
def getSessionHistory (c : CacheState) (sid : SessionId) : List HistoryEntry :=
  if c.connected then (alookup c.histories sid).getD [] else []

/-- `addToSessionHistory`: `lpush` then, only on success, `ltrim 0 99`
("keep only last 100 entries"). -/
def addToSessionHistory (c : CacheState) (sid : SessionId) (e : HistoryEntry) :
    Bool × CacheState :=
  let r := lpushHistory c sid e
  if r.1 then (r.1, ltrimHistory r.2 sid 100) else r

/-- `del('history:' + id)`; no-op when disconnected. -/
def delHistory (c : CacheState) (sid : SessionId) : CacheState :=
  if c.connected then { c with histories := aerase c.histories sid } else c

/-- `set('recording:' + id, data, ttl)`; no-op when disconnected. -/
def setRecording (c : CacheState) (rid : String) (r : Recording) (ttl : Nat) :
    CacheState :=
  if c.connected then { c with recordings := ainsert c.recordings rid ⟨r, ttl⟩ }
  else c

end CacheService

/-! ## `SessionManager` (src: the session manager file)

State: the cache service plus the two in-memory maps `activeSessions` and
`recordingSessions`.  `process.env.DEFAULT_LANGUAGE` / `DEFAULT_VOICE` are the
`Config` fields (`none` = unset environment variable).  Methods that `throw`
return an `Except String` result alongside the (possibly already mutated)
state.  JS aliasing between map entries holding the same object is modelled by
writing the final value of an operation to every key the source stores it
under; cross-operation aliasing is not tracked (each later operation re-reads
by key, as the source does). -/

/-- Environment-variable defaults read by `createSession`. -/
structure Config where
  defaultLanguage : Option String
  defaultVoice : Option String
deriving Repr, DecidableEq

/-- Caller-supplied `options` for `createSession` / `joinSession` (absent
fields are `none`). -/
structure SessionOptions where
  language : Option String
  voice : Option String
  autoTranslate : Option Bool
  voiceEnabled : Option Bool
  subtitleEnabled : Option Bool
deriving Repr, DecidableEq

/-- The caller-supplied `entry` argument of `addToHistory`. -/
structure EntryInput where
  timestamp : Option Nat
  userInput : String
  aiResponse : String
  language : Option String
  voice : Option String
  audioUrl : Option String
  duration : Option Nat
deriving Repr, DecidableEq

/-- The `updates` object merged by `updateSession` (`Object.assign`): each
present field overwrites the session's. -/
structure SessionUpdates where
  language : Option String
  voice : Option String
  settings : Option Settings
  lastActivity : Option Nat
deriving Repr, DecidableEq

/-- The whole state of one `SessionManager` instance (plus its environment
configuration). -/
structure ManagerState where
  cfg : Config
  cache : CacheState
  activeSessions : List (SessionId × Session)
  recordingSessions : List (SessionId × RecEntry)
deriving Repr, DecidableEq

namespace SessionManager

/-- `createSession(options)`: build a session with a fresh uuid (`freshId`),
defaults overridden by truthy options, persist it, cache it, return it. -/
def createSession (st : ManagerState) (freshId : String) (now : Nat)
    (options : SessionOptions) : Session × ManagerState :=
  let session : Session :=
    { id := freshId
      createdAt := now
      lastActivity := now
      participants := []
      language := jsOrStr options.language (jsOrStr st.cfg.defaultLanguage "en")
      voice := jsOrStr options.voice (jsOrStr st.cfg.defaultVoice "male")
      history := []
      isRecording := false
      recordingData := []
      settings :=
        { autoTranslate := jsOrBool options.autoTranslate false
          voiceEnabled := jsOrBool options.voiceEnabled true
          subtitleEnabled := jsOrBool options.subtitleEnabled true }
      recordingStartTime := none
      recordingEndTime := none
      recordingDuration := none
      recordings := [] }
  (session,
    { st with
      cache := CacheService.setSession st.cache freshId session
      activeSessions := ainsert st.activeSessions freshId session })

/-- `joinSession(sessionId, participantId, options)`: load from the cache
service (implicitly creating when absent), add the participant if new, apply
truthy language/voice overrides, refresh `lastActivity`, hydrate `history`
from the stored history list, persist and cache under `sessionId`.  In the
creation branch the source holds one object aliased under both its fresh id
and `sessionId`; both keys receive the final value. -/
def joinSession (st : ManagerState) (sid : SessionId) (pid : ParticipantId)
    (options : SessionOptions) (freshId : String) (now : Nat) :
    Session × ManagerState :=
  let loaded := CacheService.getSession st.cache sid
  let created := loaded.isNone
  let base := match loaded with
    | some s => (s, st)
    | none => createSession st freshId now options
  let s0 := base.1
  let st1 := base.2
  let s1 := if s0.participants.contains pid then s0
            else { s0 with participants := s0.participants ++ [pid] }
  let s2 := match options.language with
    | some l => if l = "" then s1 else { s1 with language := l }
    | none => s1
  let s3 := match options.voice with
    | some v => if v = "" then s2 else { s2 with voice := v }
    | none => s2
  let s4 := { s3 with lastActivity := now
                      history := CacheService.getSessionHistory st1.cache sid }
  let active1 := if created then ainsert st1.activeSessions freshId s4
                 else st1.activeSessions
  (s4,
    { st1 with
      cache := CacheService.setSession st1.cache sid s4
      activeSessions := ainsert active1 sid s4 })

/-- `leaveSession(sessionId, participantId)`: load from the cache service; if
absent, no-op.  Remove the participant; on an empty participant set, delete
the session from the store and drop both in-memory entries (note: the stored
history list is not touched); otherwise persist and cache the reduced
session. -/
def leaveSession (st : ManagerState) (sid : SessionId) (pid : ParticipantId)
    (now : Nat) : ManagerState :=
  match CacheService.getSession st.cache sid with
  | none => st
  | some s =>
      let s1 := { s with participants := s.participants.filter (fun i => i != pid)
                         lastActivity := now }
      if s1.participants.isEmpty then
        { st with
          cache := CacheService.deleteSession st.cache sid
          activeSessions := aerase st.activeSessions sid
          recordingSessions := aerase st.recordingSessions sid }
      else
        { st with
          cache := CacheService.setSession st.cache sid s1
          activeSessions := ainsert st.activeSessions sid s1 }

/-- `getSession(sessionId)`: memory-first lookup, falling back to the cache
service and re-caching on a hit. -/
def getSession (st : ManagerState) (sid : SessionId) :
    Option Session × ManagerState :=
  match alookup st.activeSessions sid with
  | some s => (some s, st)
  | none =>
      match CacheService.getSession st.cache sid with
      | some s => (some s, { st with activeSessions := ainsert st.activeSessions sid s })
      | none => (none, st)

/-- `updateSession(sessionId, updates)`: `Object.assign` the updates into the
session, refresh `lastActivity`, persist and cache; throws when the session is
not found. -/
def updateSession (st : ManagerState) (sid : SessionId) (u : SessionUpdates)
    (now : Nat) : Except String Session × ManagerState :=
  let g := getSession st sid
  match g.1 with
  | none => (.error "Session not found", g.2)
  | some s =>
      let s1 := { s with language := u.language.getD s.language
                         voice := u.voice.getD s.voice
                         settings := u.settings.getD s.settings
                         lastActivity := u.lastActivity.getD s.lastActivity }
      let s2 := { s1 with lastActivity := now }
      (.ok s2,
        { g.2 with
          cache := CacheService.setSession g.2.cache sid s2
          activeSessions := ainsert g.2.activeSessions sid s2 })

/-- `addToHistory(sessionId, entry)`: build the history entry (fresh uuid,
caller timestamp if truthy else now, language/voice defaulted from the
session), push it through the cache service, re-read the stored history into
the session, refresh `lastActivity`, persist; throws when the session is not
found. -/
def addToHistory (st : ManagerState) (sid : SessionId) (entry : EntryInput)
    (freshId : String) (now : Nat) : Except String HistoryEntry × ManagerState :=
  let g := getSession st sid
  match g.1 with
  | none => (.error "Session not found", g.2)
  | some s =>
      let he : HistoryEntry :=
        { id := freshId
          timestamp := jsOrNat entry.timestamp now
          userInput := entry.userInput
          aiResponse := entry.aiResponse
          language := jsOrStr entry.language s.language
          voice := jsOrStr entry.voice s.voice
          audioUrl := entry.audioUrl
          duration := entry.duration }
      let c1 := (CacheService.addToSessionHistory g.2.cache sid he).2
      let s1 := { s with history := CacheService.getSessionHistory c1 sid
                         lastActivity := now }
      (.ok he,
        { g.2 with
          cache := CacheService.setSession c1 sid s1
          activeSessions := ainsert g.2.activeSessions sid s1 })

/-- `getSessionHistory(sessionId, limit = 50)`: the stored history list
(newest first) put through `slice(-limit)`. -/
def getSessionHistory (st : ManagerState) (sid : SessionId) (limit : Nat) :
    List HistoryEntry :=
  jsSliceNeg (CacheService.getSessionHistory st.cache sid) limit

/-- `startRecording(sessionId)`: set the recording flag and start time, reset
the accumulators (both on the session and in `recordingSessions`), persist;
throws when the session is not found.  There is no already-recording check. -/
def startRecording (st : ManagerState) (sid : SessionId) (now : Nat) :
    Except String Session × ManagerState :=
  let g := getSession st sid
  match g.1 with
  | none => (.error "Session not found", g.2)
  | some s =>
      let s1 := { s with isRecording := true
                         recordingStartTime := some now
                         recordingData := [] }
      (.ok s1,
        { g.2 with
          cache := CacheService.setSession g.2.cache sid s1
          activeSessions := ainsert g.2.activeSessions sid s1
          recordingSessions := ainsert g.2.recordingSessions sid ⟨now, []⟩ })

/-- `stopRecording(sessionId)`: needs both the session and a
`recordingSessions` entry; computes the duration, snapshots the last 20
history entries, stores the recording with a 86400-second (24 h) TTL, appends
its id to `session.recordings`, clears the in-progress entry; throws
otherwise. -/
def stopRecording (st : ManagerState) (sid : SessionId) (freshRecId : String)
    (now : Nat) : Except String Recording × ManagerState :=
  let g := getSession st sid
  match g.1, alookup g.2.recordingSessions sid with
  | some s, some re =>
      let dur : Option Int := s.recordingStartTime.map (fun t0 => (now : Int) - (t0 : Int))
      let s1 := { s with isRecording := false
                         recordingEndTime := some now
                         recordingDuration := dur }
      let recording : Recording :=
        { id := freshRecId
          sessionId := sid
          startTime := re.startTime
          endTime := now
          duration := dur
          data := re.data
          history := jsSliceNeg s1.history 20 }
      let c1 := CacheService.setRecording g.2.cache freshRecId recording 86400
      let s2 := { s1 with recordings := s1.recordings ++ [freshRecId] }
      (.ok recording,
        { g.2 with
          cache := CacheService.setSession c1 sid s2
          activeSessions := ainsert g.2.activeSessions sid s2
          recordingSessions := aerase g.2.recordingSessions sid })
  | _, _ => (.error "Session or recording not found", g.2)

/-- `addRecordingData(sessionId, data)`: append a timestamped payload to the
in-memory accumulator; no-op when no recording is in progress. -/
def addRecordingData (st : ManagerState) (sid : SessionId) (payload : String)
    (now : Nat) : ManagerState :=
  match alookup st.recordingSessions sid with
  | none => st
  | some re =>
      { st with recordingSessions :=
          ainsert st.recordingSessions sid { re with data := re.data ++ [⟨now, payload⟩] } }

end SessionManager

/-! ## Invariants and derived definitions used by the verification -/

/-- The single-flight invariant for a service hosting exactly one session
`sid`: either the session is idle and no AIResponder call is outstanding, or
it is responding and exactly one call is outstanding. -/
def singleFlight (sid : SessionId) (st : LiveSvc) : Prop :=
  ∃ s : LiveSession, st.sessions = [(sid, s)] ∧
    ((st.pending = [] ∧ s.responding = false) ∨
     (∃ cid : Nat, st.pending = [⟨cid, sid⟩] ∧ s.responding = true))

/-- Fold a sequence of history appends (`CacheService.addToSessionHistory`)
into the cache, in call order. -/
def appendAll (c : CacheState) (sid : SessionId) (es : List HistoryEntry) :
    CacheState :=
  es.foldl (fun c2 e => (CacheService.addToSessionHistory c2 sid e).2) c

/-! ## Concrete running example

A connected cache; session "S" created at time 1; participant "p" joins at
time 2; three history entries are appended at times 10, 11, 12; used as the
concrete scenario for counterexamples and witnesses. -/

/-- Example configuration: no environment default language/voice. -/
def exCfg : Config := ⟨none, none⟩

/-- Example cache: connected and empty. -/
def exCache : CacheState := ⟨true, [], [], []⟩

/-- Example disconnected cache. -/
def exDiscCache : CacheState := ⟨false, [], [], []⟩

/-- Example initial manager state. -/
def exInit : ManagerState := ⟨exCfg, exCache, [], []⟩

/-- Example manager state over an unreachable store. -/
def exDiscSt : ManagerState := ⟨exCfg, exDiscCache, [], []⟩

/-- Options object with every field absent. -/
def exNoOpts : SessionOptions := ⟨none, none, none, none, none⟩

/-- An `addToHistory` input at time `t` with user text `u`. -/
def exEntry (t : Nat) (u : String) : EntryInput :=
  ⟨some t, u, "reply", some "en", some "male", none, none⟩

/-- The stored history entry that `addToHistory` builds from `exEntry t u`
under fresh id `i`. -/
def exHe (i : String) (t : Nat) (u : String) : HistoryEntry :=
  ⟨i, t, u, "reply", "en", "male", none, none⟩

/-- A throwaway session used as an `Option.getD` default below. -/
def exDefaultSession : Session :=
  (SessionManager.createSession exInit "D" 0 exNoOpts).1

/-- State after creating session "S" at time 1. -/
def exStCreated : ManagerState :=
  (SessionManager.createSession exInit "S" 1 exNoOpts).2

/-- State after participant "p" joins "S" at time 2. -/
def exStJoined : ManagerState :=
  (SessionManager.joinSession exStCreated "S" "p" exNoOpts "unusedFresh" 2).2

/-- States after appending three history entries at times 10, 11, 12. -/
def exStH1 : ManagerState :=
  (SessionManager.addToHistory exStJoined "S" (exEntry 10 "u1") "h1" 10).2

/-- State after the second history append. -/
def exStH2 : ManagerState :=
  (SessionManager.addToHistory exStH1 "S" (exEntry 11 "u2") "h2" 11).2

/-- State after the third history append. -/
def exStH3 : ManagerState :=
  (SessionManager.addToHistory exStH2 "S" (exEntry 12 "u3") "h3" 12).2

/-- The session stored for "S" at that point. -/
def exStoredS : Session :=
  (CacheService.getSession exStH3.cache "S").getD exDefaultSession

/-- State after `startRecording "S"` at time 30. -/
def exStRec : ManagerState :=
  (SessionManager.startRecording exStH3 "S" 30).2

/-- State after one raw data chunk is accumulated at time 35. -/
def exStRecData : ManagerState :=
  SessionManager.addRecordingData exStRec "S" "chunk" 35

/-- The session visible through `getSession` while recording. -/
def exRecS : Session :=
  (SessionManager.getSession exStRecData "S").1.getD exDefaultSession

/-- State with a second participant "q" joined at time 3. -/
def exStTwo : ManagerState :=
  (SessionManager.joinSession exStH3 "S" "q" exNoOpts "unusedFresh2" 3).2

/-- The session stored for "S" while it has two participants. -/
def exTwoS : Session :=
  (CacheService.getSession exStTwo.cache "S").getD exDefaultSession

/-- An `updateSession` argument with every field absent. -/
def exNoUpdates : SessionUpdates := ⟨none, none, none, none⟩

/-- The session returned by `updateSession` on "S" at time 21. -/
def exUpdS : Session :=
  ((SessionManager.updateSession exStH3 "S" exNoUpdates 21).1.toOption).getD
    exDefaultSession

/-- The session visible through `getSession` on the three-entry state. -/
def exActS : Session :=
  (SessionManager.getSession exStH3 "S").1.getD exDefaultSession

/-- A live service holding one session "s" that is currently responding, with
call 0 outstanding. -/
def exLiveResponding : LiveSvc :=
  { sessions := [("s", ⟨"s", "", true⟩)]
    pending := [⟨0, "s"⟩]
    nextCall := 1
    emitted := [] }

/-! ## Basic association-list lemmas -/

theorem alookup_ainsert_self {α : Type} (m : List (String × α)) (k : String) (v : α) :
    alookup (ainsert m k v) k = some v := by
  induction m with
  | nil => simp [ainsert, alookup]
  | cons p rest ih =>
      obtain ⟨k1, v1⟩ := p
      by_cases h : k1 = k
      · simp [ainsert, alookup, h]
      · simp [ainsert, alookup, h, ih]

theorem alookup_ainsert_ne {α : Type} (m : List (String × α)) (k k2 : String) (v : α)
    (h : k ≠ k2) : alookup (ainsert m k v) k2 = alookup m k2 := by
  induction m with
  | nil => simp [ainsert, alookup, h]
  | cons p rest ih =>
      obtain ⟨k1, v1⟩ := p
      by_cases h1 : k1 = k
      · subst h1
        simp [ainsert, alookup, h]
      · simp [ainsert, alookup, h1, ih]

theorem alookup_aerase_self {α : Type} (m : List (String × α)) (k : String) :
    alookup (aerase m k) k = none := by
  induction m with
  | nil => simp [aerase, alookup]
  | cons p rest ih =>
      obtain ⟨k1, v1⟩ := p
      by_cases h : k1 = k
      · subst h
        simpa [aerase, List.filter_cons] using ih
      · have hb : (k1 != k) = true := by simp [h]
        simpa [aerase, List.filter_cons, hb, alookup, h] using ih

/-! ## Live service lemmas: the single-flight invariant -/

theorem singleFlight_chunk (sid sid2 : SessionId) (st : LiveSvc)
    (h : singleFlight sid st) : singleFlight sid (stepLive st (.chunkArrive sid2)) := by
  obtain ⟨s, hsess, hcase⟩ := h
  by_cases heq : sid = sid2
  · subst heq
    have hl : alookup st.sessions sid = some s := by simp [hsess, alookup]
    rcases hcase with ⟨hp, hr⟩ | ⟨cid, hp, hr⟩
    · refine ⟨{ s with responding := true }, ?_, Or.inr ⟨st.nextCall, ?_, rfl⟩⟩
      · simp [stepLive, hl, hr, hsess, alookup, ainsert]
      · simp [stepLive, hl, hr, hp, hsess, alookup]
    · have hstep : stepLive st (.chunkArrive sid) = st := by simp [stepLive, hl, hr]
      rw [hstep]
      exact ⟨s, hsess, Or.inr ⟨cid, hp, hr⟩⟩
  · have hl : alookup st.sessions sid2 = none := by simp [hsess, alookup, heq]
    have hstep : stepLive st (.chunkArrive sid2) = st := by simp [stepLive, hl]
    rw [hstep]
    exact ⟨s, hsess, hcase⟩

theorem singleFlight_return (sid : SessionId) (cid : Nat) (st : LiveSvc)
    (h : singleFlight sid st) : singleFlight sid (stepLive st (.callReturn cid)) := by
  obtain ⟨s, hsess, hcase⟩ := h
  rcases hcase with ⟨hp, hr⟩ | ⟨c, hp, hr⟩
  · have hstep : stepLive st (.callReturn cid) = st := by simp [stepLive, hp]
    rw [hstep]
    exact ⟨s, hsess, Or.inl ⟨hp, hr⟩⟩
  · by_cases hc : c = cid
    · subst hc
      refine ⟨{ s with responding := false }, ?_, Or.inl ⟨?_, rfl⟩⟩
      · simp [stepLive, hp, hsess, alookup, List.find?, List.filter_cons, ainsert]
      · simp [stepLive, hp, hsess, alookup, List.find?, List.filter_cons, ainsert]
    · have hb : (c == cid) = false := by simp [hc]
      have hstep : stepLive st (.callReturn cid) = st := by
        simp [stepLive, hp, List.find?, hb]
      rw [hstep]
      exact ⟨s, hsess, Or.inr ⟨c, hp, hr⟩⟩

theorem singleFlight_run (sid : SessionId) (tr : List LiveEvent)
    (htr : onlyChunkReturn tr = true) (st : LiveSvc) (hst : singleFlight sid st) :
    singleFlight sid (runLive st tr) := by
  induction tr generalizing st with
  | nil => exact hst
  | cons ev rest ih =>
      cases ev with
      | openLive sid2 instr => simp [onlyChunkReturn] at htr
      | closeLive sid2 => simp [onlyChunkReturn] at htr
      | interrupt sid2 => simp [onlyChunkReturn] at htr
      | chunkArrive sid2 =>
          exact ih (by simpa [onlyChunkReturn] using htr) _
            (singleFlight_chunk sid sid2 st hst)
      | callReturn c =>
          exact ih (by simpa [onlyChunkReturn] using htr) _
            (singleFlight_return sid c st hst)

theorem singleFlight_pending_le (sid : SessionId) (st : LiveSvc)
    (h : singleFlight sid st) : st.pending.length ≤ 1 := by
  obtain ⟨s, _, hcase⟩ := h
  rcases hcase with ⟨hp, _⟩ | ⟨c, hp, _⟩ <;> simp [hp]

/-! ## Claim C1 -/

/-- C1, counterexample.  The claim says at most one AI-response cycle is in
flight across all interleavings of `sendAudioChunk` and `interrupt`.  But on
the trace open, chunk, interrupt, chunk the `interrupt` clears `responding`
while call 0 is still outstanding, so the second chunk starts call 1 and two
AIResponder calls are outstanding at once. -/
theorem C1_counterexample :
    (runLive initLive [.openLive "s" "", .chunkArrive "s", .interrupt "s",
        .chunkArrive "s"]).pending = [⟨0, "s"⟩, ⟨1, "s"⟩] ∧
    ¬ ((runLive initLive [.openLive "s" "", .chunkArrive "s", .interrupt "s",
        .chunkArrive "s"]).pending.length ≤ 1) := by
  constructor
  · rfl
  · decide

/-- C1, amended.  (1) An audio chunk arriving while `responding` is true is
dropped without starting a call (the whole service state is unchanged).
(2) Over interleavings of `sendAudioChunk` arrivals and call returns alone
(no interrupt, no close), starting from a freshly opened session, at most one
AIResponder call is ever in flight.  The strict-mutex claim fails once
`interrupt` is interleaved, as `C1_counterexample` shows. -/
theorem C1_single_flight_amended :
    (∀ (st : LiveSvc) (sid : SessionId) (s : LiveSession),
        alookup st.sessions sid = some s → s.responding = true →
        stepLive st (.chunkArrive sid) = st) ∧
    (∀ (sid : SessionId) (instr : String) (tr : List LiveEvent),
        onlyChunkReturn tr = true →
        (runLive (stepLive initLive (.openLive sid instr)) tr).pending.length ≤ 1) := by
  constructor
  · intro st sid s hs hr
    simp [stepLive, hs, hr]
  · intro sid instr tr htr
    refine singleFlight_pending_le sid _ (singleFlight_run sid tr htr _ ?_)
    exact ⟨⟨sid, instr, false⟩, by simp [stepLive, initLive, ainsert], Or.inl ⟨rfl, rfl⟩⟩

/-- C1 witness: both parts of the amended theorem at concrete inputs. -/
theorem C1_single_flight_amended_witness :
    stepLive exLiveResponding (.chunkArrive "s") = exLiveResponding ∧
    (runLive (stepLive initLive (.openLive "s" "hi"))
        [.chunkArrive "s", .callReturn 0, .chunkArrive "s"]).pending.length ≤ 1 := by
  constructor
  · exact C1_single_flight_amended.1 exLiveResponding "s" ⟨"s", "", true⟩ rfl rfl
  · exact C1_single_flight_amended.2 "s" "hi"
      [.chunkArrive "s", .callReturn 0, .chunkArrive "s"] rfl

/-! ## Claim C2 -/

/-- C2, counterexample.  After open, chunk, interrupt the session is
observably idle (`responding = false`) while call 0 is still outstanding, as
the claim says; but when that interrupted call returns, its result IS emitted
(the code discards late results only when the session id has been removed
from the map, and `interrupt` does not remove it). -/
theorem C2_counterexample :
    (runLive initLive [.openLive "s" "", .chunkArrive "s", .interrupt "s"]).pending
        = [⟨0, "s"⟩] ∧
    (alookup (runLive initLive [.openLive "s" "", .chunkArrive "s",
        .interrupt "s"]).sessions "s").map LiveSession.responding = some false ∧
    (runLive initLive [.openLive "s" "", .chunkArrive "s", .interrupt "s",
        .callReturn 0]).emitted = [⟨"s", 0⟩] := by
  refine ⟨rfl, rfl, rfl⟩

/-- C2, amended.  (1) `interrupt` on an open session immediately clears
`responding`, so the session is observable as idle.  (2) A late result is
discarded only by session closure: when the call's session id is absent from
the map at return time, nothing is emitted.  (The result of a merely
interrupted call on a still-open session is emitted, per
`C2_counterexample`.) -/
theorem C2_interrupt_amended :
    (∀ (st : LiveSvc) (sid : SessionId) (s : LiveSession),
        alookup st.sessions sid = some s →
        alookup (stepLive st (.interrupt sid)).sessions sid
          = some { s with responding := false }) ∧
    (∀ (st : LiveSvc) (cid : Nat) (p : PendingCall),
        st.pending.find? (fun q => q.callId == cid) = some p →
        alookup st.sessions p.sessionId = none →
        (stepLive st (.callReturn cid)).emitted = st.emitted) := by
  constructor
  · intro st sid s hs
    simp [stepLive, hs, alookup_ainsert_self]
  · intro st cid p hp hnone
    simp [stepLive, hp, hnone]

/-- C2 witness: interrupt a responding session; return a call whose session
was closed. -/
theorem C2_interrupt_amended_witness :
    alookup (stepLive exLiveResponding (.interrupt "s")).sessions "s"
        = some ⟨"s", "", false⟩ ∧
    (stepLive { exLiveResponding with sessions := [] } (.callReturn 0)).emitted
        = ({ exLiveResponding with sessions := [] } : LiveSvc).emitted := by
  constructor
  · exact C2_interrupt_amended.1 exLiveResponding "s" ⟨"s", "", true⟩ rfl
  · exact C2_interrupt_amended.2 { exLiveResponding with sessions := [] } 0 ⟨0, "s"⟩ rfl rfl

/-! ## History ledger lemmas -/

theorem jsSliceNeg_pos {α : Type} (l : List α) (k : Nat) (hk : 0 < k) :
    jsSliceNeg l k = l.drop (l.length - k) := by
  simp [jsSliceNeg, Nat.pos_iff_ne_zero.mp hk]

theorem jsSliceNeg_length_le {α : Type} (l : List α) (k : Nat) (hk : 0 < k) :
    (jsSliceNeg l k).length ≤ k := by
  rw [jsSliceNeg_pos l k hk, List.length_drop]
  omega

theorem take_append_take {α : Type} (a c : List α) (n : Nat) :
    (a ++ c.take n).take n = (a ++ c).take n := by
  rw [List.take_append_eq_append_take, List.take_append_eq_append_take,
    List.take_take, Nat.min_eq_left (Nat.sub_le n a.length)]

theorem addToSessionHistory_connected (c : CacheState) (sid : SessionId)
    (e : HistoryEntry) :
    (CacheService.addToSessionHistory c sid e).2.connected = c.connected := by
  by_cases hc : c.connected = true <;>
    simp [CacheService.addToSessionHistory, CacheService.lpushHistory,
      CacheService.ltrimHistory, hc]

theorem addToSessionHistory_stored (c : CacheState) (sid : SessionId)
    (e : HistoryEntry) (hc : c.connected = true) :
    CacheService.getSessionHistory (CacheService.addToSessionHistory c sid e).2 sid
      = (e :: CacheService.getSessionHistory c sid).take 100 := by
  simp [CacheService.addToSessionHistory, CacheService.lpushHistory,
    CacheService.ltrimHistory, CacheService.getSessionHistory, hc,
    alookup_ainsert_self]

theorem appendAll_stored (sid : SessionId) (es : List HistoryEntry) (c : CacheState)
    (hc : c.connected = true)
    (hlen : (CacheService.getSessionHistory c sid).length ≤ 100) :
    CacheService.getSessionHistory (appendAll c sid es) sid
      = (es.reverse ++ CacheService.getSessionHistory c sid).take 100 := by
  induction es generalizing c with
  | nil =>
      simpa [appendAll] using (List.take_of_length_le hlen).symm
  | cons e rest ih =>
      have hc1 : (CacheService.addToSessionHistory c sid e).2.connected = true := by
        rw [addToSessionHistory_connected]; exact hc
      have hstep := addToSessionHistory_stored c sid e hc
      have hlen1 :
          (CacheService.getSessionHistory (CacheService.addToSessionHistory c sid e).2 sid).length
            ≤ 100 := by
        rw [hstep]; simp
      have hrec := ih (CacheService.addToSessionHistory c sid e).2 hc1 hlen1
      have : appendAll c sid (e :: rest)
          = appendAll (CacheService.addToSessionHistory c sid e).2 sid rest := by
        simp [appendAll]
      rw [this, hrec, hstep]
      have : rest.reverse ++ (e :: CacheService.getSessionHistory c sid).take 100
          = rest.reverse ++ ((e :: CacheService.getSessionHistory c sid)).take 100 := rfl
      rw [take_append_take]
      simp

/-! ## Claim C3 -/

/-- C3, counterexample.  Three entries are appended at times 10, 11, 12; the
claim says `read("S", 2)` returns the 2 most recent entries in chronological
order, i.e. the entries appended at times 11 and 12.  The code stores history
newest-first (`lpush`) and then takes `slice(-limit)`, so it returns the two
OLDEST stored entries in newest-first order: the entries of times 11 and 10,
with 11 before 10. -/
theorem C3_counterexample :
    SessionManager.getSessionHistory exStH3 "S" 2
        = [exHe "h2" 11 "u2", exHe "h1" 10 "u1"] ∧
    SessionManager.getSessionHistory exStH3 "S" 2
        ≠ [exHe "h2" 11 "u2", exHe "h3" 12 "u3"] := by
  constructor
  · rfl
  · decide

/-- C3, amended.  After any sequence of appends to one session (starting from
a connected store with no history for it), the stored history is the reversed
append sequence truncated to its 100 newest entries — so the length bound and
the oldest-first FIFO eviction hold as claimed, and any read returns at most
100 entries.  But `read(sessionId, N)` (for `N > 0`) returns the suffix of the
stored newest-first list, i.e. the N OLDEST retained entries in reverse
chronological order, not the N most recent in chronological order. -/
theorem C3_history_amended (c : CacheState) (sid : SessionId)
    (es : List HistoryEntry) (n : Nat)
    (hc : c.connected = true) (h0 : alookup c.histories sid = none) (hn : 0 < n) :
    CacheService.getSessionHistory (appendAll c sid es) sid = es.reverse.take 100 ∧
    (CacheService.getSessionHistory (appendAll c sid es) sid).length ≤ 100 ∧
    ∀ (cfg : Config) (act : List (SessionId × Session))
        (rs : List (SessionId × RecEntry)),
      SessionManager.getSessionHistory ⟨cfg, appendAll c sid es, act, rs⟩ sid n
        = (es.reverse.take 100).drop ((es.reverse.take 100).length - n) := by
  have hempty : CacheService.getSessionHistory c sid = [] := by
    simp [CacheService.getSessionHistory, hc, h0]
  have hstored := appendAll_stored sid es c hc (by simp [hempty])
  rw [hempty] at hstored
  simp only [List.append_nil] at hstored
  refine ⟨hstored, ?_, ?_⟩
  · rw [hstored]; simp
  · intro cfg act rs
    show jsSliceNeg (CacheService.getSessionHistory (appendAll c sid es) sid) n = _
    rw [hstored, jsSliceNeg_pos _ n hn]

/-- C3 witness: the amended theorem at the three-entry example. -/
theorem C3_history_amended_witness :
    CacheService.getSessionHistory
        (appendAll exCache "S"
          [exHe "h1" 10 "u1", exHe "h2" 11 "u2", exHe "h3" 12 "u3"]) "S"
      = ([exHe "h1" 10 "u1", exHe "h2" 11 "u2", exHe "h3" 12 "u3"] :
          List HistoryEntry).reverse.take 100 ∧
    (CacheService.getSessionHistory
        (appendAll exCache "S"
          [exHe "h1" 10 "u1", exHe "h2" 11 "u2", exHe "h3" 12 "u3"]) "S").length ≤ 100 ∧
    ∀ (cfg : Config) (act : List (SessionId × Session))
        (rs : List (SessionId × RecEntry)),
      SessionManager.getSessionHistory
          ⟨cfg, appendAll exCache "S"
            [exHe "h1" 10 "u1", exHe "h2" 11 "u2", exHe "h3" 12 "u3"], act, rs⟩ "S" 2
        = (([exHe "h1" 10 "u1", exHe "h2" 11 "u2", exHe "h3" 12 "u3"] :
            List HistoryEntry).reverse.take 100).drop
            ((([exHe "h1" 10 "u1", exHe "h2" 11 "u2", exHe "h3" 12 "u3"] :
              List HistoryEntry).reverse.take 100).length - 2) :=
  C3_history_amended exCache "S"
    [exHe "h1" 10 "u1", exHe "h2" 11 "u2", exHe "h3" 12 "u3"] 2 rfl rfl (by decide)

/-! ## Claim C4 -/

/-- C4, counterexample.  Session "S" has one participant "p" and three stored
history entries.  After `leaveSession "S" "p"` empties the participant set,
`getSession "S"` is indeed absent — but the claim also says a subsequent
history read returns empty, and it does not: `leaveSession` deletes only the
session key and the in-memory entries, never the stored history list, so the
read still returns all three entries. -/
theorem C4_counterexample :
    (SessionManager.getSession (SessionManager.leaveSession exStH3 "S" "p" 20) "S").1
        = none ∧
    SessionManager.getSessionHistory (SessionManager.leaveSession exStH3 "S" "p" 20) "S" 50
        = [exHe "h3" 12 "u3", exHe "h2" 11 "u2", exHe "h1" 10 "u1"] ∧
    SessionManager.getSessionHistory (SessionManager.leaveSession exStH3 "S" "p" 20) "S" 50
        ≠ [] := by
  refine ⟨rfl, rfl, ?_⟩
  decide

/-- C4, amended.  When `leaveSession` removes the last remaining participant
of a session present in a connected store, the session is deleted from both
the in-memory map and the store (so `getSession` returns absent) and the
in-memory recording state is dropped — but the stored history list is left
untouched, so a subsequent history read for that session can still return
the previously appended entries. -/
theorem C4_teardown_amended (st : ManagerState) (sid : SessionId)
    (pid : ParticipantId) (s : Session) (now : Nat)
    (hc : st.cache.connected = true)
    (hs : CacheService.getSession st.cache sid = some s)
    (hlast : s.participants.filter (fun i => i != pid) = []) :
    (SessionManager.getSession (SessionManager.leaveSession st sid pid now) sid).1
        = none ∧
    (SessionManager.leaveSession st sid pid now).cache.histories
        = st.cache.histories ∧
    (SessionManager.leaveSession st sid pid now).recordingSessions
        = aerase st.recordingSessions sid := by
  have hleave : SessionManager.leaveSession st sid pid now
      = { st with cache := CacheService.deleteSession st.cache sid
                  activeSessions := aerase st.activeSessions sid
                  recordingSessions := aerase st.recordingSessions sid } := by
    simp [SessionManager.leaveSession, hs, hlast]
  rw [hleave]
  refine ⟨?_, ?_, rfl⟩
  · simp [SessionManager.getSession, alookup_aerase_self, CacheService.getSession,
      CacheService.deleteSession, hc]
  · simp [CacheService.deleteSession, hc]

/-- C4 witness: the amended theorem at the concrete example state. -/
theorem C4_teardown_amended_witness :
    (SessionManager.getSession (SessionManager.leaveSession exStH3 "S" "p" 20) "S").1
        = none ∧
    (SessionManager.leaveSession exStH3 "S" "p" 20).cache.histories
        = exStH3.cache.histories ∧
    (SessionManager.leaveSession exStH3 "S" "p" 20).recordingSessions
        = aerase exStH3.recordingSessions "S" :=
  C4_teardown_amended exStH3 "S" "p" exStoredS 20 rfl rfl (by decide)

/-! ## Claim C5 -/

/-- C5, counterexample.  Recording was started on "S" at time 30 and one raw
data point was accumulated at time 35.  A second `startRecording` at time 40
does not fail with any error (let alone `AlreadyRecording`): it returns
`ok` and silently resets the accumulator, discarding the point and replacing
the start time. -/
theorem C5_counterexample :
    alookup exStRecData.recordingSessions "S" = some ⟨30, [⟨35, "chunk"⟩]⟩ ∧
    (SessionManager.startRecording exStRecData "S" 40).1.isOk = true ∧
    alookup (SessionManager.startRecording exStRecData "S" 40).2.recordingSessions "S"
        = some ⟨40, []⟩ := by
  refine ⟨rfl, rfl, rfl⟩

/-- C5, amended.  `startRecording` on a session that is already recording
succeeds (no `AlreadyRecording` error exists in the code): it resets the
session's recording start time to the current time, clears
`session.recordingData`, and replaces the in-memory accumulator with a fresh
empty one, discarding all previously accumulated raw data points. -/
theorem C5_double_start_amended (st : ManagerState) (sid : SessionId)
    (s : Session) (now : Nat)
    (hs : (SessionManager.getSession st sid).1 = some s)
    (_hrec : s.isRecording = true) :
    (SessionManager.startRecording st sid now).1
        = .ok { s with isRecording := true
                       recordingStartTime := some now
                       recordingData := [] } ∧
    alookup (SessionManager.startRecording st sid now).2.recordingSessions sid
        = some ⟨now, []⟩ := by
  constructor
  · simp [SessionManager.startRecording, hs]
  · simp [SessionManager.startRecording, hs, alookup_ainsert_self]

/-- C5 witness: the amended theorem at the concrete recording example. -/
theorem C5_double_start_amended_witness :
    (SessionManager.startRecording exStRecData "S" 40).1
        = .ok { exRecS with isRecording := true
                            recordingStartTime := some 40
                            recordingData := [] } ∧
    alookup (SessionManager.startRecording exStRecData "S" 40).2.recordingSessions "S"
        = some ⟨40, []⟩ :=
  C5_double_start_amended exStRecData "S" exRecS 40 rfl (by decide)

/-! ## Claim C6 -/

/-- C6, counterexample.  The session "S" has `lastActivity = 12` (set by the
last history append).  `startRecording` at time 30 is a mutating recording
transition, yet the stored session's `lastActivity` is still 12, not 30:
recording transitions do not refresh `lastActivity`. -/
theorem C6_counterexample :
    (alookup (SessionManager.startRecording exStH3 "S" 30).2.activeSessions "S").map
        Session.lastActivity = some 12 ∧
    ¬ ((alookup (SessionManager.startRecording exStH3 "S" 30).2.activeSessions "S").map
        Session.lastActivity = some 30) := by
  refine ⟨rfl, ?_⟩
  decide

/-- C6, amended.  `lastActivity` is set to the current time by `joinSession`,
by `leaveSession` (when participants remain), by `updateSession` and by
`addToHistory` — hence it is monotonically non-decreasing when call times are
non-decreasing — but it is NOT updated by the recording transitions:
`startRecording` and `stopRecording` leave it exactly as it was. -/
theorem C6_lastActivity_amended :
    (∀ (st : ManagerState) (sid : SessionId) (pid : ParticipantId)
        (o : SessionOptions) (g : String) (now : Nat),
        (SessionManager.joinSession st sid pid o g now).1.lastActivity = now) ∧
    (∀ (st : ManagerState) (sid : SessionId) (pid : ParticipantId) (now : Nat)
        (s : Session),
        CacheService.getSession st.cache sid = some s →
        s.participants.filter (fun i => i != pid) ≠ [] →
        (alookup (SessionManager.leaveSession st sid pid now).activeSessions sid).map
            Session.lastActivity = some now) ∧
    (∀ (st : ManagerState) (sid : SessionId) (u : SessionUpdates) (now : Nat)
        (s2 : Session),
        (SessionManager.updateSession st sid u now).1 = .ok s2 →
        s2.lastActivity = now) ∧
    (∀ (st : ManagerState) (sid : SessionId) (e : EntryInput) (g : String)
        (now : Nat) (s : Session),
        (SessionManager.getSession st sid).1 = some s →
        (alookup (SessionManager.addToHistory st sid e g now).2.activeSessions sid).map
            Session.lastActivity = some now) ∧
    (∀ (st : ManagerState) (sid : SessionId) (now : Nat) (s : Session),
        (SessionManager.getSession st sid).1 = some s →
        (alookup (SessionManager.startRecording st sid now).2.activeSessions sid).map
            Session.lastActivity = some s.lastActivity) ∧
    (∀ (st : ManagerState) (sid : SessionId) (rid : String) (now : Nat)
        (s : Session) (re : RecEntry),
        (SessionManager.getSession st sid).1 = some s →
        alookup (SessionManager.getSession st sid).2.recordingSessions sid = some re →
        (alookup (SessionManager.stopRecording st sid rid now).2.activeSessions sid).map
            Session.lastActivity = some s.lastActivity) := by
  refine ⟨?_, ?_, ?_, ?_, ?_, ?_⟩
  · intro st sid pid o g now
    rfl
  · intro st sid pid now s hs hne
    have hemp : (s.participants.filter (fun i => i != pid)).isEmpty = false := by
      cases h : s.participants.filter (fun i => i != pid) with
      | nil => exact absurd h hne
      | cons a l => rfl
    simp [SessionManager.leaveSession, hs, hemp, alookup_ainsert_self]
  · intro st sid u now s2 h
    cases hg : (SessionManager.getSession st sid).1 with
    | none => simp [SessionManager.updateSession, hg] at h
    | some s =>
        simp [SessionManager.updateSession, hg] at h
        rw [← h]
  · intro st sid e g now s hs
    simp [SessionManager.addToHistory, hs, alookup_ainsert_self]
  · intro st sid now s hs
    simp [SessionManager.startRecording, hs, alookup_ainsert_self]
  · intro st sid rid now s re hs hre
    simp [SessionManager.stopRecording, hs, hre, alookup_ainsert_self]

/-- C6 witness: every part of the amended theorem at a concrete input. -/
theorem C6_lastActivity_amended_witness :
    (SessionManager.joinSession exInit "S" "p" exNoOpts "g1" 7).1.lastActivity = 7 ∧
    (alookup (SessionManager.leaveSession exStTwo "S" "q" 22).activeSessions "S").map
        Session.lastActivity = some 22 ∧
    exUpdS.lastActivity = 21 ∧
    (alookup (SessionManager.addToHistory exStH3 "S" (exEntry 13 "u4") "h4" 13).2.activeSessions
        "S").map Session.lastActivity = some 13 ∧
    (alookup (SessionManager.startRecording exStH3 "S" 30).2.activeSessions "S").map
        Session.lastActivity = some exActS.lastActivity ∧
    (alookup (SessionManager.stopRecording exStRecData "S" "R1" 50).2.activeSessions "S").map
        Session.lastActivity = some exRecS.lastActivity := by
  refine ⟨?_, ?_, ?_, ?_, ?_, ?_⟩
  · exact C6_lastActivity_amended.1 exInit "S" "p" exNoOpts "g1" 7
  · exact C6_lastActivity_amended.2.1 exStTwo "S" "q" 22 exTwoS rfl (by decide)
  · exact C6_lastActivity_amended.2.2.1 exStH3 "S" exNoUpdates 21 exUpdS rfl
  · exact C6_lastActivity_amended.2.2.2.1 exStH3 "S" (exEntry 13 "u4") "h4" 13 exActS rfl
  · exact C6_lastActivity_amended.2.2.2.2.1 exStH3 "S" 30 exActS rfl
  · exact C6_lastActivity_amended.2.2.2.2.2 exStRecData "S" "R1" 50 exRecS
      ⟨30, [⟨35, "chunk"⟩]⟩ rfl rfl

/-! ## Claim C7 -/

theorem getSession_cache (st : ManagerState) (sid : SessionId) :
    (SessionManager.getSession st sid).2.cache = st.cache := by
  rcases h1 : alookup st.activeSessions sid with _ | s
  · rcases h2 : CacheService.getSession st.cache sid with _ | s <;>
      simp [SessionManager.getSession, h1, h2]
  · simp [SessionManager.getSession, h1]

theorem setSession_connected (c : CacheState) (sid : SessionId) (s : Session) :
    (CacheService.setSession c sid s).connected = c.connected := by
  by_cases hc : c.connected = true <;> simp [CacheService.setSession, hc]

theorem setSession_recordings (c : CacheState) (sid : SessionId) (s : Session) :
    (CacheService.setSession c sid s).recordings = c.recordings := by
  by_cases hc : c.connected = true <;> simp [CacheService.setSession, hc]

/-- C7: `stopRecording` immediately after a successful `startRecording` (over
a connected store) returns a Recording whose history snapshot has at most 20
entries, whose `duration` is exactly `endTime - startTime` (both of which are
the actual stop and start times), and which is persisted under its own key
with a 86400-second (24-hour) TTL. -/
theorem C7_stop_after_start (st : ManagerState) (sid : SessionId) (s : Session)
    (t1 t2 : Nat) (rid : String)
    (hs : (SessionManager.getSession st sid).1 = some s)
    (hc : st.cache.connected = true) :
    ∃ r : Recording,
      (SessionManager.stopRecording (SessionManager.startRecording st sid t1).2 sid rid t2).1
          = .ok r ∧
      r.history.length ≤ 20 ∧
      r.duration = some ((t2 : Int) - (t1 : Int)) ∧
      r.startTime = t1 ∧ r.endTime = t2 ∧
      alookup (SessionManager.stopRecording (SessionManager.startRecording st sid t1).2
          sid rid t2).2.cache.recordings rid
        = some ⟨r, 86400⟩ := by
  have hstart : (SessionManager.startRecording st sid t1).2
      = { (SessionManager.getSession st sid).2 with
          cache := CacheService.setSession (SessionManager.getSession st sid).2.cache sid
            { s with isRecording := true
                     recordingStartTime := some t1
                     recordingData := [] }
          activeSessions := ainsert (SessionManager.getSession st sid).2.activeSessions sid
            { s with isRecording := true
                     recordingStartTime := some t1
                     recordingData := [] }
          recordingSessions := ainsert (SessionManager.getSession st sid).2.recordingSessions
            sid ⟨t1, []⟩ } := by
    simp [SessionManager.startRecording, hs]
  have hget1 : SessionManager.getSession (SessionManager.startRecording st sid t1).2 sid
      = (some { s with isRecording := true
                       recordingStartTime := some t1
                       recordingData := [] },
         (SessionManager.startRecording st sid t1).2) := by
    rw [hstart]
    simp [SessionManager.getSession, alookup_ainsert_self]
  have hre1 : alookup (SessionManager.startRecording st sid t1).2.recordingSessions sid
      = some ⟨t1, []⟩ := by
    rw [hstart]
    simp [alookup_ainsert_self]
  refine ⟨{ id := rid
            sessionId := sid
            startTime := t1
            endTime := t2
            duration := some ((t2 : Int) - (t1 : Int))
            data := []
            history := jsSliceNeg s.history 20 }, ?_, ?_, rfl, rfl, rfl, ?_⟩
  · simp [SessionManager.stopRecording, hget1, hre1]
  · exact jsSliceNeg_length_le s.history 20 (by omega)
  · have hconn1 : (SessionManager.startRecording st sid t1).2.cache.connected = true := by
      rw [hstart]
      simp only [setSession_connected, getSession_cache]
      exact hc
    simp only [SessionManager.stopRecording, hget1, hre1]
    simp [setSession_recordings, CacheService.setRecording, hconn1, alookup_ainsert_self]

/-- C7 witness: start at time 30 and stop at time 50 on the concrete example
session. -/
theorem C7_stop_after_start_witness :
    ∃ r : Recording,
      (SessionManager.stopRecording (SessionManager.startRecording exStH3 "S" 30).2
          "S" "R1" 50).1 = .ok r ∧
      r.history.length ≤ 20 ∧
      r.duration = some (((50 : Nat) : Int) - ((30 : Nat) : Int)) ∧
      r.startTime = 30 ∧ r.endTime = 50 ∧
      alookup (SessionManager.stopRecording (SessionManager.startRecording exStH3 "S" 30).2
          "S" "R1" 50).2.cache.recordings "R1"
        = some ⟨r, 86400⟩ :=
  C7_stop_after_start exStH3 "S" exActS 30 50 "R1" rfl rfl

/-! ## Claim C8 -/

/-- C8: the claim says caller-supplied settings are honoured, and the client
code sends `voiceEnabled: options.voiceEnabled !== false` expecting a supplied
`false` to be respected; but the server computes
`options.voiceEnabled || true` (and likewise for `subtitleEnabled`), which is
identically `true`, so a caller-supplied `false` is silently overridden.
`autoTranslate` (default `false`) does honour the caller's value.  This
evaluates `createSession` at the failing input. -/
theorem C8_settings_bug :
    (SessionManager.createSession exInit "X" 0
        ⟨none, none, none, some false, some false⟩).1.settings.voiceEnabled = true ∧
    (SessionManager.createSession exInit "X" 0
        ⟨none, none, none, some false, some false⟩).1.settings.subtitleEnabled = true ∧
    (SessionManager.createSession exInit "X" 0
        ⟨none, none, some false, none, none⟩).1.settings.autoTranslate = false ∧
    (SessionManager.createSession exInit "X" 0
        ⟨none, none, some true, none, none⟩).1.settings.autoTranslate = true := by
  refine ⟨rfl, rfl, rfl, rfl⟩

/-! ## Claim C9 -/

/-- C9: when the store is unreachable (`connected = false`), the history path
degrades instead of failing: a raw read returns the empty list, an append is a
no-op on the store returning `false` (and is not followed by a trim), and the
manager-level `getSessionHistory` returns the empty list for every limit.
All three operations are total functions: no error is raised. -/
theorem C9_degraded_history (st : ManagerState) (sid : SessionId)
    (e : HistoryEntry) (n : Nat)
    (hc : st.cache.connected = false) :
    CacheService.getSessionHistory st.cache sid = [] ∧
    CacheService.addToSessionHistory st.cache sid e = (false, st.cache) ∧
    SessionManager.getSessionHistory st sid n = [] := by
  refine ⟨?_, ?_, ?_⟩
  · simp [CacheService.getSessionHistory, hc]
  · simp [CacheService.addToSessionHistory, CacheService.lpushHistory, hc]
  · by_cases hn : n = 0 <;>
      simp [SessionManager.getSessionHistory, CacheService.getSessionHistory, hc,
        jsSliceNeg, hn]

/-- C9 witness: the degraded behaviour over the disconnected example store. -/
theorem C9_degraded_history_witness :
    CacheService.getSessionHistory exDiscSt.cache "S" = [] ∧
    CacheService.addToSessionHistory exDiscSt.cache "S" (exHe "h1" 1 "u1")
        = (false, exDiscSt.cache) ∧
    SessionManager.getSessionHistory exDiscSt "S" 5 = [] :=
  C9_degraded_history exDiscSt "S" (exHe "h1" 1 "u1") 5 rfl

/-! ## Claim C10 -/

/-- C10: joining a session id that exists in neither the in-memory map nor
the store implicitly creates a session whose id is the freshly generated uuid
`g`, not the requested `sid`; that object is then cached and persisted under
the key `sid`, so the returned session's `id` field differs from the session
id the caller asked to join. -/
theorem C10_join_creates_fresh_id (st : ManagerState) (sid : SessionId)
    (pid : ParticipantId) (o : SessionOptions) (g : String) (now : Nat)
    (_hmem : alookup st.activeSessions sid = none)
    (hstore : CacheService.getSession st.cache sid = none)
    (hc : st.cache.connected = true)
    (hg : g ≠ sid) :
    (SessionManager.joinSession st sid pid o g now).1.id = g ∧
    (SessionManager.joinSession st sid pid o g now).1.id ≠ sid ∧
    alookup (SessionManager.joinSession st sid pid o g now).2.activeSessions sid
        = some (SessionManager.joinSession st sid pid o g now).1 ∧
    CacheService.getSession (SessionManager.joinSession st sid pid o g now).2.cache sid
        = some (SessionManager.joinSession st sid pid o g now).1 := by
  have h1 : (SessionManager.joinSession st sid pid o g now).1.id = g := by
    simp only [SessionManager.joinSession, hstore]
    rcases o.language with _ | l <;> rcases o.voice with _ | v <;>
      simp [SessionManager.createSession] <;> split <;> simp_all <;> split <;> simp_all
  refine ⟨h1, by rw [h1]; exact hg, ?_, ?_⟩
  · simp [SessionManager.joinSession, hstore]
    exact alookup_ainsert_self _ _ _
  · have hstore2 : alookup st.cache.sessions sid = none := by
      have h2 := hstore
      simp [CacheService.getSession, hc] at h2
      exact h2
    simp only [SessionManager.joinSession, hstore]
    simp [CacheService.getSession, CacheService.setSession,
      SessionManager.createSession, hc, hstore2, alookup_ainsert_self]

/-- C10 witness: joining absent id "want" with generated id "gen". -/
theorem C10_join_creates_fresh_id_witness :
    (SessionManager.joinSession exInit "want" "p1" exNoOpts "gen" 5).1.id = "gen" ∧
    (SessionManager.joinSession exInit "want" "p1" exNoOpts "gen" 5).1.id ≠ "want" ∧
    alookup (SessionManager.joinSession exInit "want" "p1" exNoOpts "gen" 5).2.activeSessions
        "want" = some (SessionManager.joinSession exInit "want" "p1" exNoOpts "gen" 5).1 ∧
    CacheService.getSession
        (SessionManager.joinSession exInit "want" "p1" exNoOpts "gen" 5).2.cache "want"
      = some (SessionManager.joinSession exInit "want" "p1" exNoOpts "gen" 5).1 :=
  C10_join_creates_fresh_id exInit "want" "p1" exNoOpts "gen" 5 rfl rfl rfl (by decide)
